import Mathlib

/-!
Shallow embedding of the recall scoring engine
(`sae_auto_interp/scorers/recall/recall.py`).

The core pipeline: `RecallScorer._prepare` assembles labeled `Sample`s from
activating quantile-groups and random (non-activating) examples and slices
them into batches; `RecallScorer.query` builds a judge prompt per batch,
calls the backend (with a structured-response schema when the batch has more
than one sample, as free text otherwise) and fills each sample's `predicted`
field from the parsed response; `RecallScorer.process_batches` fires one
query per batch (asyncio.gather) and flattens the results into plain records.

Python exceptions (KeyError on a missing response field, ValueError /
IndexError in `int(selections[-1])`) are embedded as `Option`: `none` is an
uncaught exception propagating out of the call.
-/

namespace SaeAutoInterp

/-- A raw example as consumed by the scorer: it only reads `example.tokens`
and hands them to the tokenizer. -/
structure FeatureExample where
  tokens : List Nat
  deriving Repr, DecidableEq

/-- The decoder collaborator: `tokenizer.decode(tokens) -> text`. -/
abbrev Tokenizer := List Nat → String

/-- The `Sample` dataclass: text shown to the judge, quantile label,
ground truth, and the initially-unset `predicted` slot (`None` in Python). -/
structure Sample where
  text : String
  quantile : Int
  ground_truth : Bool
  predicted : Option Bool := none
  deriving Repr, DecidableEq

/-- Embeds `Sample._prepare_samples`: decode each example and attach the given
quantile and ground-truth labels; `predicted` stays unset. -/
def Sample.prepare_samples (examples : List FeatureExample) (quantile : Int)
    (ground_truth : Bool) (tokenizer : Tokenizer) : List Sample :=
  examples.map fun ex =>
    { text := tokenizer ex.tokens
      quantile := quantile
      ground_truth := ground_truth }

/-- The plain record produced by `Sample.default()` (a dict in Python, with
the same four fields). -/
structure SampleRecord where
  text : String
  quantile : Int
  ground_truth : Bool
  predicted : Option Bool
  deriving Repr, DecidableEq

/-- Embeds `Sample.default()`: expose the sample as a plain record. -/
def Sample.default (s : Sample) : SampleRecord :=
  { text := s.text
    quantile := s.quantile
    ground_truth := s.ground_truth
    predicted := s.predicted }

/-- Modelled from the spec: `create_response_model` (clients/client.py is not
under src/). For a batch of `n` samples it yields the structured-response
schema whose fields are named `example_0 .. example_{n-1}`; we keep exactly
the field names, which is all the dispatcher reads back. -/
def create_response_model (n : Nat) : List String :=
  (List.range n).map fun i => s!"example_{i}"

/-- Modelled from the spec: the backend client (clients/client.py is not
under src/). `generate` with a schema is expected to return structured data
conforming to it — a mapping from field names to binary indicators, embedded
as an association list; without a schema it returns free text. The generation
kwargs (`max_tokens`, `temperature`) are passed through verbatim. -/
structure Client where
  generateStructured : String → List String → Nat → Float → List (String × Int)
  generateText : String → Nat → Float → String

/-- Modelled from the spec: the prompt template (`prompt.py` is not under
src/): the explanation and the rendered example block are interpolated into a
single-sample or batched template variant. The claims never inspect the
template text, only which variant is selected and what is interpolated. -/
def clean_prompt (explanation : String) (examples : String) (batched : Bool) :
    String :=
  (if batched then "batched template\n" else "single template\n")
    ++ explanation ++ "\n" ++ examples

/-- Modelled from the spec: the slice of `FeatureRecord` the scorer reads
(`features/` is not under src/): its pool of random non-activating examples. -/
structure FeatureRecord where
  random_examples : List FeatureExample

/-- Modelled from the spec: `ScorerInput` (scorers/scorer.py is not under
src/): the feature record, the activating test examples grouped by quantile,
and the explanation under evaluation. -/
structure ScorerInput where
  record : FeatureRecord
  test_examples : List (List FeatureExample)
  explanation : String

/-- The Unicode decimal digits (general category Nd, Unicode 14.0 as shipped
with CPython 3.11) form 66 aligned runs of ten consecutive code points
`zero .. zero + 9` whose decimal values are `0 .. 9`; this is the list of the
zeros: ASCII `0`, Arabic-Indic `٠`, …, fullwidth `０` (0xFF10), … -/
def ndDigitRunStarts : List Nat :=
  [0x30, 0x660, 0x6F0, 0x7C0, 0x966, 0x9E6, 0xA66, 0xAE6, 0xB66, 0xBE6,
   0xC66, 0xCE6, 0xD66, 0xDE6, 0xE50, 0xED0, 0xF20, 0x1040, 0x1090, 0x17E0,
   0x1810, 0x1946, 0x19D0, 0x1A80, 0x1A90, 0x1B50, 0x1BB0, 0x1C40, 0x1C50,
   0xA620, 0xA8D0, 0xA900, 0xA9D0, 0xA9F0, 0xAA50, 0xABF0, 0xFF10, 0x104A0,
   0x10D30, 0x11066, 0x110F0, 0x11136, 0x111D0, 0x112F0, 0x11450, 0x114D0,
   0x11650, 0x116C0, 0x11730, 0x118E0, 0x11950, 0x11C50, 0x11D50, 0x11DA0,
   0x16A60, 0x16AC0, 0x16B50, 0x1D7CE, 0x1D7D8, 0x1D7E2, 0x1D7EC, 0x1D7F6,
   0x1E140, 0x1E2F0, 0x1E950, 0x1FBF0]

/-- Python `int` applied to a one-character string: it succeeds exactly on
the Unicode decimal digits (category Nd) — not just ASCII `0`-`9`; e.g.
`int('١') = int('１') = 1` — yielding the digit's decimal value, and raises
ValueError on every other character. -/
def pyIntOfChar (ch : Char) : Option Int :=
  match ndDigitRunStarts.find? fun z =>
      decide (z ≤ ch.toNat) && decide (ch.toNat < z + 10) with
  | some z => some ((ch.toNat : Int) - (z : Int))
  | none => none

/-- Python `s[-1]` on a string: its final character; raises IndexError on the
empty string. -/
def lastChar (s : String) : Option Char :=
  s.data.getLast?

/-- Embeds `[samples[i:i + batch_size] for i in range(0, len(samples), batch_size)]`:
`range(0, n, step)` enumerates `0, step, 2*step, …`, which has
`(n + step - 1) / step` elements. -/
def sliceBatches (samples : List α) (batch_size : Nat) : List (List α) :=
  (List.range ((samples.length + batch_size - 1) / batch_size)).map fun k =>
    (samples.drop (k * batch_size)).take batch_size

/-- A Python `for` loop over `l` whose body either produces an updated element
or raises (`none`): the first raise propagates and the whole loop yields
`none`. -/
def traverseOption (f : α → Option β) : List α → Option (List β)
  | [] => some []
  | x :: xs =>
    match f x, traverseOption f xs with
    | some y, some ys => some (y :: ys)
    | _, _ => none

/-- The `RecallScorer` configuration, fixed at construction. -/
structure RecallScorer where
  client : Client
  tokenizer : Tokenizer
  echo : Bool := false
  temperature : Float := 0.0
  max_tokens : Nat := 300
  batch_size : Nat := 10

/-- Embeds `RecallScorer.build_prompt`: render each sample of the batch as a line
`Example {i}: {text}` using its position within the batch, join with
newlines, and hand everything to the template. -/
def RecallScorer.build_prompt (self : RecallScorer) (batch : List Sample)
    (explanation : String) (batched : Bool) : String :=
  let examples := String.intercalate "\n"
    (batch.enum.map fun p =>
      let i := p.1
      let t := p.2.text
      s!"Example {i}: {t}")
  clean_prompt explanation examples batched

/-- Embeds `RecallScorer.query`: one backend round trip for one batch.
`batched = len(batch) > 1` selects the structured path (schema-constrained
generation, then `sample.predicted = selections["example_i"] == 1` for each
sample — a missing key raises) or the free-text path
(`batch[0].predicted = int(selections[-1]) == 1` — an empty response or a
non-digit final character raises, and an empty batch raises IndexError). -/
def RecallScorer.query (self : RecallScorer) (batch : List Sample)
    (explanation : String) : Option (List Sample) :=
  let batched : Bool := decide (batch.length > 1)
  let prompt := self.build_prompt batch explanation batched
  let schema := create_response_model batch.length
  if batched then
    let selections :=
      self.client.generateStructured prompt schema self.max_tokens self.temperature
    traverseOption
      (fun p =>
        let i := p.1
        (selections.lookup s!"example_{i}").map fun indicator =>
          { p.2 with predicted := some (decide (indicator = 1)) })
      batch.enum
  else
    let selections := self.client.generateText prompt self.max_tokens self.temperature
    match batch, (lastChar selections).bind pyIntOfChar with
    | [], _ => none
    | _ :: _, none => none
    | sample :: rest, some indicator =>
      some ({ sample with predicted := some (decide (indicator = 1)) } :: rest)

/-- Embeds `RecallScorer._prepare`: random examples first with `quantile = -1`,
`ground_truth = False`; then each activating group `i` with
`quantile = i + 1`, `ground_truth = True`; finally slice into batches. -/
def RecallScorer._prepare (self : RecallScorer)
    (activating_examples : List (List FeatureExample))
    (incorrect_examples : List FeatureExample) : List (List Sample) :=
  let samples :=
    Sample.prepare_samples incorrect_examples (-1) false self.tokenizer
      ++ (activating_examples.enum.map fun p =>
            Sample.prepare_samples p.2 ((p.1 : Int) + 1) true self.tokenizer).flatten
  sliceBatches samples self.batch_size

/-- Embeds `RecallScorer.process_batches`: fire one `query` per batch
(`asyncio.gather` preserves submission order and re-raises the first task
exception), then flatten the per-batch sample lists into plain records. -/
def RecallScorer.process_batches (self : RecallScorer)
    (batches : List (List Sample)) (explanation : String) :
    Option (List SampleRecord) :=
  (traverseOption (fun batch => self.query batch explanation) batches).map
    fun results => results.flatten.map Sample.default

/-- Embeds `RecallScorer.__call__`: assemble the batches from the scoring request and
run `process_batches`. -/
def RecallScorer.call (self : RecallScorer) (scorer_in : ScorerInput) :
    Option (List SampleRecord) :=
  let samples := self._prepare scorer_in.test_examples scorer_in.record.random_examples
  self.process_batches samples scorer_in.explanation

/-! ### Auxiliary definitions for the verification -/

/-- Reference chunker for `sliceBatches`: peel `b + 1` elements at a time. -/
def chunksRec (b : Nat) : List α → List (List α)
  | [] => []
  | x :: xs => ((x :: xs).take (b + 1)) :: chunksRec b (xs.drop b)
  termination_by l => l.length
  decreasing_by simp only [List.length_drop, List.length_cons]; omega

/-- Cut a flat list back into consecutive pieces of the given lengths. -/
def sliceBy : List Nat → List α → List (List α)
  | [], _ => []
  | n :: ns, l => l.take n :: sliceBy ns (l.drop n)

/-! ### Concrete inputs used by witnesses and counterexamples -/

/-- A witness backend: the structured response maps `example_0 ↦ 0`,
`example_1 ↦ 1`, `example_2 ↦ 1`; the free-text response ends in `1`. -/
def clientW : Client :=
  { generateStructured := fun _ _ _ _ =>
      [("example_0", 0), ("example_1", 1), ("example_2", 1)]
    generateText := fun _ _ _ => "the answer is 1" }

/-- A witness scorer over `clientW` with batch size 3. -/
def scorerW : RecallScorer :=
  { client := clientW
    tokenizer := fun _ => "w"
    batch_size := 3 }

/-- A witness batch of three samples. -/
def batchW : List Sample :=
  [{ text := "t0", quantile := -1, ground_truth := false },
   { text := "t1", quantile := 1, ground_truth := true },
   { text := "t2", quantile := 2, ground_truth := true }]

/-- The batch `batchW` after a batched query against `clientW`: predictions
`[false, true, true]` in sample order. -/
def outW : List Sample :=
  [{ text := "t0", quantile := -1, ground_truth := false, predicted := some false },
   { text := "t1", quantile := 1, ground_truth := true, predicted := some true },
   { text := "t2", quantile := 2, ground_truth := true, predicted := some true }]

/-- The indicators of `clientW`'s structured response, by position. -/
def vW : Nat → Int := fun i => if i = 0 then 0 else 1

/-- A witness sample for single-sample mode. -/
def sW : Sample := { text := "tw", quantile := 1, ground_truth := true }

/-- A backend whose free-text response is the given string (structured
responses empty). -/
def clientText (r : String) : Client :=
  { generateStructured := fun _ _ _ _ => []
    generateText := fun _ _ _ => r }

/-- A scorer over `clientText r`, used for single-sample-mode witnesses. -/
def scorerText (r : String) : RecallScorer :=
  { client := clientText r
    tokenizer := fun _ => "w" }

/-- The malformed-response backend of Scenario C: the structured response
omits the field `example_1`. -/
def clientC : Client :=
  { generateStructured := fun _ _ _ _ => [("example_0", 0), ("example_2", 1)]
    generateText := fun _ _ _ => "" }

/-- The scorer over the malformed backend `clientC`. -/
def scorerC : RecallScorer :=
  { client := clientC
    tokenizer := fun _ => "w"
    batch_size := 3 }

/-! ### Lemma kit: chunking -/

theorem numChunks_tail (b m : Nat) : (m - b + b) / (b + 1) = m / (b + 1) := by
  rcases Nat.le_total b m with h | h
  · rw [Nat.sub_add_cancel h]
  · rw [Nat.sub_eq_zero_of_le h, Nat.zero_add,
      Nat.div_eq_of_lt (by omega), Nat.div_eq_of_lt (by omega)]

theorem sliceBatches_eq_chunksRec (b : Nat) (l : List α) :
    sliceBatches l (b + 1) = chunksRec b l := by
  induction l using chunksRec.induct b with
  | case1 => simp [sliceBatches, chunksRec, Nat.div_eq_of_lt (Nat.lt_succ_self b)]
  | case2 x xs ih =>
    rw [chunksRec]
    unfold sliceBatches
    have hcount : (x :: xs).length + (b + 1) - 1 = xs.length + (b + 1) := by
      simp only [List.length_cons]; omega
    rw [hcount, Nat.add_div_right _ (Nat.succ_pos b), List.range_succ_eq_map,
      List.map_cons, List.map_map]
    congr 1
    · simp
    · rw [← ih]
      unfold sliceBatches
      have hcount2 : (xs.drop b).length + (b + 1) - 1 = xs.length - b + b := by
        simp only [List.length_drop]; omega
      rw [hcount2, numChunks_tail]
      refine List.map_congr_left fun k _ => ?_
      show ((x :: xs).drop (Nat.succ k * (b + 1))).take (b + 1) = _
      rw [List.drop_drop]
      have harith : Nat.succ k * (b + 1) = (b + (k * (b + 1))) + 1 := by
        rw [Nat.succ_mul]; omega
      rw [harith, List.drop_succ_cons]

theorem chunksRec_flatten (b : Nat) (l : List α) : (chunksRec b l).flatten = l := by
  induction l using chunksRec.induct b with
  | case1 => rw [chunksRec]; rfl
  | case2 x xs ih =>
    rw [chunksRec, List.flatten_cons, ih, ← List.drop_succ_cons,
      List.take_append_drop]

theorem chunksRec_mem_length (b : Nat) (l : List α) :
    ∀ c ∈ chunksRec b l, c.length ≤ b + 1 ∧ c ≠ [] := by
  induction l using chunksRec.induct b with
  | case1 => rw [chunksRec]; intro c hc; cases hc
  | case2 x xs ih =>
    rw [chunksRec]
    intro c hc
    rcases List.mem_cons.mp hc with rfl | hc
    · refine ⟨by simp [List.length_take], by simp⟩
    · exact ih c hc

theorem chunksRec_dropLast_length (b : Nat) (l : List α) :
    ∀ c ∈ (chunksRec b l).dropLast, c.length = b + 1 := by
  induction l using chunksRec.induct b with
  | case1 => rw [chunksRec]; intro c hc; cases hc
  | case2 x xs ih =>
    rw [chunksRec]
    intro c hc
    rcases hrest : chunksRec b (xs.drop b) with _ | ⟨r, rs⟩
    · rw [hrest] at hc; cases hc
    · rw [hrest] at hc
      rcases List.mem_cons.mp hc with rfl | hc
      · have hne : xs.drop b ≠ [] := by
          intro hnil
          rw [hnil] at hrest
          rw [chunksRec] at hrest
          cases hrest
        have hlen : b < xs.length := by
          by_contra hle
          exact hne (List.drop_eq_nil_iff.mpr (by omega))
        simp only [List.length_take, List.length_cons]
        omega
      · exact ih c (by rw [hrest]; exact hc)

/-! ### Lemma kit: `traverseOption` -/

theorem traverseOption_map (f : α → Option β) (g : α → β) (l : List α)
    (h : ∀ x ∈ l, f x = some (g x)) : traverseOption f l = some (l.map g) := by
  induction l with
  | nil => rfl
  | cons x xs ih =>
    rw [traverseOption, h x (List.mem_cons_self x xs),
      ih fun y hy => h y (List.mem_cons_of_mem x hy), List.map_cons]

theorem traverseOption_none (f : α → Option β) (l : List α) (x : α)
    (hx : x ∈ l) (hfx : f x = none) : traverseOption f l = none := by
  induction l with
  | nil => cases hx
  | cons y ys ih =>
    rw [traverseOption]
    rcases List.mem_cons.mp hx with rfl | hmem
    · rw [hfx]
    · rw [ih hmem]
      cases f y <;> rfl

theorem traverseOption_forall₂ (f : α → Option β) :
    ∀ (l : List α) (r : List β), traverseOption f l = some r →
      List.Forall₂ (fun x y => f x = some y) l r := by
  intro l
  induction l with
  | nil =>
    intro r h
    rw [traverseOption] at h
    cases h
    exact List.Forall₂.nil
  | cons x xs ih =>
    intro r h
    rw [traverseOption] at h
    rcases hfx : f x with _ | y <;> rcases htr : traverseOption f xs with _ | ys <;>
      rw [hfx, htr] at h <;> try cases h
    exact List.Forall₂.cons hfx (ih ys htr)

/-! ### Lemma kit: slicing a flat list back into batch boundaries -/

theorem sliceBy_map_length_flatten (L : List (List α)) :
    sliceBy (L.map List.length) L.flatten = L := by
  induction L with
  | nil => rfl
  | cons xs L ih =>
    rw [List.map_cons, List.flatten_cons, sliceBy, List.take_left,
      List.drop_left, ih]

/-! ### Lemma kit: `query` -/

theorem enumFrom_mem_fst_lt :
    ∀ (n : Nat) (l : List α) (p : Nat × α), p ∈ l.enumFrom n → p.1 < n + l.length := by
  intro n l
  induction l generalizing n with
  | nil => intro p hp; cases hp
  | cons x xs ih =>
    intro p hp
    rcases List.mem_cons.mp hp with rfl | hp
    · simp
    · have := ih (n + 1) p hp
      simp only [List.length_cons]
      omega

theorem enum_mem_fst_lt (l : List α) (p : Nat × α) (hp : p ∈ l.enum) :
    p.1 < l.length := by
  have := enumFrom_mem_fst_lt 0 l p hp
  omega

theorem traverseOption_enumFrom_forall₂ (f : Nat × α → Option β) :
    ∀ (n : Nat) (l : List α) (r : List β),
      traverseOption f (l.enumFrom n) = some r →
      List.Forall₂ (fun x y => ∃ i, f (i, x) = some y) l r := by
  intro n l
  induction l generalizing n with
  | nil =>
    intro r h
    rw [show ([] : List α).enumFrom n = [] from rfl, traverseOption] at h
    cases h
    exact List.Forall₂.nil
  | cons x xs ih =>
    intro r h
    rw [show (x :: xs).enumFrom n = (n, x) :: xs.enumFrom (n + 1) from rfl,
      traverseOption] at h
    rcases hfx : f (n, x) with _ | y <;>
      rcases htr : traverseOption f (xs.enumFrom (n + 1)) with _ | ys <;>
        rw [hfx, htr] at h <;> try cases h
    exact List.Forall₂.cons ⟨n, hfx⟩ (ih (n + 1) ys htr)

/-- Structured-path formula: when the batch has at least two samples and the
backend mapping contains every field `example_i` with value `v i`, the query
succeeds and sets each sample's prediction to `v i == 1`. -/
theorem query_batched_eq (self : RecallScorer) (batch : List Sample)
    (explanation : String) (v : Nat → Int)
    (h2 : 2 ≤ batch.length)
    (hv : ∀ i, i < batch.length →
      ((self.client.generateStructured (self.build_prompt batch explanation true)
          (create_response_model batch.length) self.max_tokens
          self.temperature).lookup s!"example_{i}") = some (v i)) :
    self.query batch explanation =
      some (batch.enum.map fun p =>
        { p.2 with predicted := some (decide (v p.1 = 1)) }) := by
  have hb : decide (batch.length > 1) = true := by
    simp only [decide_eq_true_eq]
    omega
  simp only [RecallScorer.query, hb, if_true]
  refine traverseOption_map _ _ _ fun p hp => ?_
  have hlt : p.1 < batch.length := enum_mem_fst_lt batch p hp
  simp only [hv p.1 hlt, Option.map_some']

/-- Free-text-path failure: a singleton batch takes the no-schema path; if
the response is empty or its final character is not a digit, `int(...)`
raises and the query fails. -/
theorem query_singleton_none (self : RecallScorer) (s : Sample)
    (explanation : String)
    (h : (lastChar (self.client.generateText
        (self.build_prompt [s] explanation false) self.max_tokens
        self.temperature)).bind pyIntOfChar = none) :
    self.query [s] explanation = none := by
  have hb : decide (([s] : List Sample).length > 1) = false := rfl
  simp only [RecallScorer.query, hb, Bool.false_eq_true, if_false]
  rw [show decide (([s] : List Sample).length > 1) = false from hb] at *
  simp only [h]

/-- Free-text-path success: a singleton batch takes the no-schema path; if
the final character of the response parses as the digit `v`, the sample's
prediction is set to `v == 1`. -/
theorem query_singleton_some (self : RecallScorer) (s : Sample)
    (explanation : String) (v : Int)
    (h : (lastChar (self.client.generateText
        (self.build_prompt [s] explanation false) self.max_tokens
        self.temperature)).bind pyIntOfChar = some v) :
    self.query [s] explanation =
      some [{ s with predicted := some (decide (v = 1)) }] := by
  have hb : decide (([s] : List Sample).length > 1) = false := rfl
  simp only [RecallScorer.query, hb, Bool.false_eq_true, if_false]
  simp only [h]

/-- The query never invents, drops, reorders or relabels samples: on success,
each output sample keeps the input sample's `text`, `quantile` and
`ground_truth`, and carries a populated `predicted`. -/
theorem query_preserves (self : RecallScorer) (batch : List Sample)
    (explanation : String) (out : List Sample)
    (h : self.query batch explanation = some out) :
    List.Forall₂ (fun s t => t.text = s.text ∧ t.quantile = s.quantile ∧
      t.ground_truth = s.ground_truth ∧ ∃ b, t.predicted = some b) batch out := by
  match batch with
  | [] =>
    rw [RecallScorer.query] at h
    simp at h
  | [s] =>
    rcases hres : (lastChar (self.client.generateText
        (self.build_prompt [s] explanation false) self.max_tokens
        self.temperature)).bind pyIntOfChar with _ | v
    · rw [query_singleton_none self s explanation hres] at h
      cases h
    · rw [query_singleton_some self s explanation v hres] at h
      cases h
      exact List.Forall₂.cons ⟨rfl, rfl, rfl, _, rfl⟩ List.Forall₂.nil
  | a :: b :: rest =>
    have hb : decide ((a :: b :: rest).length > 1) = true := by
      simp only [decide_eq_true_eq, List.length_cons]
      omega
    simp only [RecallScorer.query, hb, if_true] at h
    have h2 := traverseOption_enumFrom_forall₂ _ 0 _ _ h
    refine h2.imp fun s t ht => ?_
    rcases ht with ⟨i, hi⟩
    rcases Option.map_eq_some'.mp hi with ⟨w, _, rfl⟩
    exact ⟨rfl, rfl, rfl, _, rfl⟩

theorem prepare_samples_length (exs : List FeatureExample) (q : Int) (gt : Bool)
    (tok : Tokenizer) : (Sample.prepare_samples exs q gt tok).length = exs.length := by
  simp [Sample.prepare_samples]

theorem enum_map_snd_length (act : List (List FeatureExample)) :
    act.enum.map (fun p => p.2.length) = act.map List.length := by
  rw [show (fun p : Nat × List FeatureExample => p.2.length) =
      (List.length ∘ Prod.snd) from rfl]
  rw [← List.map_map, List.enum_eq_enumFrom, List.enumFrom_map_snd]

theorem mem_prepare_samples {exs : List FeatureExample} {q : Int} {gt : Bool}
    {tok : Tokenizer} {s : Sample} (hs : s ∈ Sample.prepare_samples exs q gt tok) :
    s.quantile = q ∧ s.ground_truth = gt ∧ s.predicted = none := by
  rcases List.mem_map.mp hs with ⟨ex, _, rfl⟩
  exact ⟨rfl, rfl, rfl⟩

theorem mem_of_mem_sliceBatches {samples : List α} {bs : Nat} {c : List α}
    (hc : c ∈ sliceBatches samples bs) {x : α} (hx : x ∈ c) : x ∈ samples := by
  rcases List.mem_map.mp hc with ⟨k, _, rfl⟩
  exact List.mem_of_mem_drop (List.mem_of_mem_take hx)

/-- Claim C4: the assembler drops and duplicates nothing — the total number of
assembled samples (across all batches produced by `_prepare`) is the number of
random examples plus the sum of the activating group sizes. -/
theorem claim_C4_assembly_completeness (self : RecallScorer)
    (activating_examples : List (List FeatureExample))
    (incorrect_examples : List FeatureExample)
    (hbs : 1 ≤ self.batch_size) :
    ((self._prepare activating_examples incorrect_examples).flatten).length =
      incorrect_examples.length + (activating_examples.map List.length).sum := by
  obtain ⟨b, hb⟩ : ∃ b, self.batch_size = b + 1 := ⟨self.batch_size - 1, by omega⟩
  simp only [RecallScorer._prepare, hb, sliceBatches_eq_chunksRec, chunksRec_flatten]
  simp only [List.length_append, List.length_flatten, List.map_map,
    Function.comp_def, prepare_samples_length]
  rw [enum_map_snd_length]

/-- Claim C4 witness: a concrete instance with batch size 2, one random
example and two activating groups of sizes 1 and 2. -/
theorem claim_C4_witness :
    (1 ≤ (RecallScorer.mk
        ⟨fun _ _ _ _ => [], fun _ _ _ => ""⟩ (fun _ => "t") false 0.0 300 2).batch_size) ∧
    (((RecallScorer.mk ⟨fun _ _ _ _ => [], fun _ _ _ => ""⟩ (fun _ => "t") false 0.0 300
          2)._prepare [[⟨[1]⟩], [⟨[2]⟩, ⟨[3]⟩]] [⟨[0]⟩]).flatten).length =
      ([⟨[0]⟩] : List FeatureExample).length +
        (([[⟨[1]⟩], [⟨[2]⟩, ⟨[3]⟩]] : List (List FeatureExample)).map List.length).sum :=
  ⟨by decide,
    claim_C4_assembly_completeness
      (RecallScorer.mk ⟨fun _ _ _ _ => [], fun _ _ _ => ""⟩ (fun _ => "t") false 0.0 300 2)
      [[⟨[1]⟩], [⟨[2]⟩, ⟨[3]⟩]] [⟨[0]⟩] (by decide)⟩

/-- Claim C5: the flat assembled list is exactly the non-activating samples
first (each with `quantile = -1`, `ground_truth = false`) followed by the
activating groups in order (group `i` yielding `quantile = i + 1`,
`ground_truth = true`). -/
theorem claim_C5_labels_and_order (self : RecallScorer)
    (activating_examples : List (List FeatureExample))
    (incorrect_examples : List FeatureExample)
    (hbs : 1 ≤ self.batch_size) :
    ((self._prepare activating_examples incorrect_examples).flatten =
      Sample.prepare_samples incorrect_examples (-1) false self.tokenizer
        ++ (activating_examples.enum.map fun p =>
              Sample.prepare_samples p.2 ((p.1 : Int) + 1) true self.tokenizer).flatten) ∧
    (∀ s ∈ Sample.prepare_samples incorrect_examples (-1) false self.tokenizer,
      s.quantile = -1 ∧ s.ground_truth = false) ∧
    (∀ p ∈ activating_examples.enum,
      ∀ s ∈ Sample.prepare_samples p.2 ((p.1 : Int) + 1) true self.tokenizer,
        s.quantile = (p.1 : Int) + 1 ∧ s.ground_truth = true) := by
  obtain ⟨b, hb⟩ : ∃ b, self.batch_size = b + 1 := ⟨self.batch_size - 1, by omega⟩
  refine ⟨?_, ?_, ?_⟩
  · simp only [RecallScorer._prepare, hb, sliceBatches_eq_chunksRec, chunksRec_flatten]
  · intro s hs
    rcases List.mem_map.mp hs with ⟨ex, _, rfl⟩
    exact ⟨rfl, rfl⟩
  · intro p _ s hs
    rcases List.mem_map.mp hs with ⟨ex, _, rfl⟩
    exact ⟨rfl, rfl⟩

/-- Claim C5 witness: the same concrete instance, spelled out. -/
theorem claim_C5_witness :
    ((RecallScorer.mk ⟨fun _ _ _ _ => [], fun _ _ _ => ""⟩ (fun _ => "t") false 0.0 300
        2)._prepare [[⟨[1]⟩]] [⟨[0]⟩]).flatten =
      Sample.prepare_samples [⟨[0]⟩] (-1) false (fun _ => "t")
        ++ (([[⟨[1]⟩]] : List (List FeatureExample)).enum.map fun p =>
              Sample.prepare_samples p.2 ((p.1 : Int) + 1) true (fun _ => "t")).flatten :=
  (claim_C5_labels_and_order
    (RecallScorer.mk ⟨fun _ _ _ _ => [], fun _ _ _ => ""⟩ (fun _ => "t") false 0.0 300 2)
    [[⟨[1]⟩]] [⟨[0]⟩] (by decide)).1

/-- Claim C6: for `batch_size ≥ 1` the batching step is an order-preserving
partition: every non-final batch has exactly `batch_size` samples, every batch
is nonempty with at most `batch_size` samples, and concatenating the batches
in order reconstructs the assembled list. -/
theorem claim_C6_batch_partition (samples : List Sample) (batch_size : Nat)
    (hbs : 1 ≤ batch_size) :
    (sliceBatches samples batch_size).flatten = samples ∧
    (∀ c ∈ (sliceBatches samples batch_size).dropLast, c.length = batch_size) ∧
    (∀ c ∈ sliceBatches samples batch_size, c.length ≤ batch_size ∧ c ≠ []) := by
  obtain ⟨b, hb⟩ : ∃ b, batch_size = b + 1 := ⟨batch_size - 1, by omega⟩
  subst hb
  rw [sliceBatches_eq_chunksRec]
  exact ⟨chunksRec_flatten b samples, chunksRec_dropLast_length b samples,
    chunksRec_mem_length b samples⟩

/-- Claim C6 witness: five samples in batches of two: `[2, 2, 1]`. -/
theorem claim_C6_witness :
    (sliceBatches
        [Sample.mk "a" 1 true none, Sample.mk "b" 1 true none,
         Sample.mk "c" 1 true none, Sample.mk "d" 1 true none,
         Sample.mk "e" 1 true none] 2).flatten =
      [Sample.mk "a" 1 true none, Sample.mk "b" 1 true none,
       Sample.mk "c" 1 true none, Sample.mk "d" 1 true none,
       Sample.mk "e" 1 true none] :=
  (claim_C6_batch_partition
    [Sample.mk "a" 1 true none, Sample.mk "b" 1 true none,
     Sample.mk "c" 1 true none, Sample.mk "d" 1 true none,
     Sample.mk "e" 1 true none] 2 (by decide)).1

/-- Claim C8: with no random examples and no activating groups, the scoring
call returns an empty sequence. The scorer — and in particular its backend
client — is universally quantified and the result is the same fixed `some []`
for every client, so no backend call can influence (or be required for) the
result: the assembler yields no batches, hence `process_batches` spawns no
query. Empty input is valid degenerate input, not an error. -/
theorem claim_C8_empty_input (self : RecallScorer) (explanation : String) :
    self.call { record := { random_examples := [] }, test_examples := [],
                explanation := explanation } = some [] := by
  have h0 : ∀ bs : Nat, (bs - 1) / bs = 0 := by
    intro bs
    rcases bs with _ | b
    · rfl
    · exact Nat.div_eq_of_lt (by omega)
  simp [RecallScorer.call, RecallScorer._prepare, RecallScorer.process_batches,
    Sample.prepare_samples, sliceBatches, traverseOption, h0]

/-- Claim C9: (a) every sample assembled by `_prepare` is created with
`predicted` unset and with `ground_truth` determined by its quantile
(`-1 ↦ false`, `≥ 1 ↦ true`); (b) on success the dispatcher's `query` is the
only writer of `predicted` — each output sample keeps its input `text`,
`quantile` and `ground_truth` unchanged and carries `predicted = some _`,
i.e. the one-time write happens after the batch response is parsed and
touches nothing else. -/
theorem claim_C9_invariants (self : RecallScorer)
    (activating_examples : List (List FeatureExample))
    (incorrect_examples : List FeatureExample) :
    (∀ s ∈ (self._prepare activating_examples incorrect_examples).flatten,
      s.predicted = none ∧ (s.quantile = -1 → s.ground_truth = false) ∧
        (1 ≤ s.quantile → s.ground_truth = true)) ∧
    (∀ (batch : List Sample) (explanation : String) (out : List Sample),
      self.query batch explanation = some out →
      List.Forall₂ (fun s t => t.text = s.text ∧ t.quantile = s.quantile ∧
        t.ground_truth = s.ground_truth ∧ ∃ b, t.predicted = some b) batch out) := by
  constructor
  · intro s hs
    rcases List.mem_flatten.mp hs with ⟨c, hc, hsc⟩
    have hsamples := mem_of_mem_sliceBatches hc hsc
    rcases List.mem_append.mp hsamples with hrand | hact
    · obtain ⟨hq, hgt, hpred⟩ := mem_prepare_samples hrand
      exact ⟨hpred, fun _ => hgt, fun h => by rw [hq] at h; omega⟩
    · rcases List.mem_flatten.mp hact with ⟨piece, hpiece, hspiece⟩
      rcases List.mem_map.mp hpiece with ⟨p, _, rfl⟩
      obtain ⟨hq, hgt, hpred⟩ := mem_prepare_samples hspiece
      exact ⟨hpred, fun h => by rw [hq] at h; omega, fun _ => hgt⟩
  · intro batch explanation out h
    exact query_preserves self batch explanation out h

/-! ### Lemma kit: parsing the final character -/

theorem pyIntOfChar_one : pyIntOfChar '1' = some 1 := by decide

/-! ### The claims -/

/-- Claim C1: in batched mode (more than one sample) the query parses the
backend response as a mapping from field names `example_i` to binary
indicators and, for the sample at position `i` of the batch, sets
`predicted = (indicator at example_i == 1)`; the witness instantiates the
3-sample scenario `{example_0: 0, example_1: 1, example_2: 1}` giving
predictions `[false, true, true]` in sample order. -/
theorem claim_C1_batched_predictions (self : RecallScorer) (batch : List Sample)
    (explanation : String) (v : Nat → Int) (h2 : 2 ≤ batch.length)
    (hv : ∀ i, i < batch.length →
      ((self.client.generateStructured (self.build_prompt batch explanation true)
          (create_response_model batch.length) self.max_tokens
          self.temperature).lookup s!"example_{i}") = some (v i)) :
    ∃ out, self.query batch explanation = some out ∧
      out.length = batch.length ∧
      ∀ i (hi : i < out.length),
        (out.get ⟨i, hi⟩).predicted = some (decide (v i = 1)) := by
  refine ⟨_, query_batched_eq self batch explanation v h2 hv, ?_, ?_⟩
  · simp [List.enum_eq_enumFrom]
  · intro i hi
    simp only [List.get_eq_getElem, List.getElem_map, List.enum_eq_enumFrom,
      List.getElem_enumFrom]
    simp

/-- Claim C1 witness: Scenario B — batch of 3, response
`{example_0: 0, example_1: 1, example_2: 1}`, and the resulting predictions
are `[false, true, true]` in sample order. -/
theorem claim_C1_witness :
    (2 ≤ batchW.length) ∧
    (∃ out, scorerW.query batchW "expl" = some out ∧
      out.length = batchW.length ∧
      ∀ i (hi : i < out.length),
        (out.get ⟨i, hi⟩).predicted = some (decide (vW i = 1))) ∧
    (scorerW.query batchW "expl").map (List.map Sample.predicted) =
      some [some false, some true, some true] :=
  ⟨by decide,
   claim_C1_batched_predictions scorerW batchW "expl" vW (by decide) (by decide),
   by decide⟩

/-- Claim C2 counterexample: the program computes `int(final) == 1`, not
`final == "1"`. For a response ending in the Arabic-Indic digit one `'١'`
(Python `int('١') = 1`) the single-sample query sets `predicted = true`
although the final character is not `'1'` — so the claimed "predicted is
true if and only if the final token equals `1`" fails in the only-if
direction. -/
theorem claim_C2_counterexample :
    (scorerText "the total is ١").query [sW] "expl" =
      some [{ sW with predicted := some true }] ∧
    lastChar "the total is ١" = some '١' ∧ ('١' : Char) ≠ '1' := by
  refine ⟨?_, ?_, ?_⟩ <;> decide

/-- Claim C2 (amended): a batch of exactly one sample takes the no-schema
path — the result is insensitive to the structured side of the client — the
response is treated as free text, its final character is extracted and
parsed as a Python `int`, and `predicted` is set to `true` exactly when that
final character is a Unicode decimal digit of value 1 (the character `'1'`
in particular, but also e.g. `'١'`); a response ending in `"1"` always
yields `predicted = true` (Scenario A, exercised by the witness). -/
theorem claim_C2_single_sample (self : RecallScorer) (s : Sample)
    (explanation : String) (r : String)
    (hr : self.client.generateText (self.build_prompt [s] explanation false)
        self.max_tokens self.temperature = r) :
    (∀ g, RecallScorer.query
        { self with client := { self.client with generateStructured := g } }
        [s] explanation = self.query [s] explanation) ∧
    (∀ out, self.query [s] explanation = some out →
      (out = [{ s with predicted := some true }] ↔
        ∃ ch, lastChar r = some ch ∧ pyIntOfChar ch = some 1)) ∧
    (lastChar r = some '1' →
      self.query [s] explanation = some [{ s with predicted := some true }]) := by
  subst hr
  refine ⟨fun g => rfl, ?_, ?_⟩
  · intro out hout
    rcases hres : (lastChar (self.client.generateText
        (self.build_prompt [s] explanation false) self.max_tokens
        self.temperature)).bind pyIntOfChar with _ | v
    · rw [query_singleton_none self s explanation hres] at hout
      cases hout
    · rw [query_singleton_some self s explanation v hres] at hout
      cases hout
      constructor
      · intro heq
        have hv1 : v = 1 := by
          have := List.head_eq_of_cons_eq heq
          have hpred : some (decide (v = 1)) = some true :=
            congrArg Sample.predicted this
          injection hpred with hpred
          simpa using of_decide_eq_true hpred
        subst hv1
        exact Option.bind_eq_some.mp hres
      · intro hdig1
        rcases hdig1 with ⟨ch, hch, hparse⟩
        rw [hch] at hres
        have : pyIntOfChar ch = some v := hres
        rw [hparse] at this
        injection this with this
        subst this
        rfl
  · intro hlast
    have hres : (lastChar (self.client.generateText
        (self.build_prompt [s] explanation false) self.max_tokens
        self.temperature)).bind pyIntOfChar = some 1 := by
      rw [hlast]
      exact pyIntOfChar_one
    have := query_singleton_some self s explanation 1 hres
    simpa using this

/-- Claim C2 witness: Scenario A — `batch_size = 1`, one activating sample,
free-text response ending in `"1"` gives `predicted = true`. -/
theorem claim_C2_witness :
    (scorerText "the answer is 1").query [sW] "expl" =
      some [{ sW with predicted := some true }] :=
  (claim_C2_single_sample (scorerText "the answer is 1") sW "expl"
    "the answer is 1" rfl).2.2 (by decide)

/-- Claim C10 counterexample: `'١'` is a decimal digit distinct from the
character `'1'`, yet a response ending in it makes the query succeed with
`predicted = true` (Python `int('١') = 1`) — refuting the claim's "any digit
other than `'1'` gives `predicted = false`" (and, under an ASCII reading of
"digit", refuting its "non-digit final character raises" instead, since the
query succeeds on this input). -/
theorem claim_C10_counterexample :
    (pyIntOfChar '١').isSome = true ∧ ('١' : Char) ≠ '1' ∧
    (scorerText "the total is ١").query [sW] "expl" =
      some [{ sW with predicted := some true }] := by
  refine ⟨?_, ?_, ?_⟩ <;> decide

/-- Claim C10 (amended): in single-sample mode, a response whose final
character is not a Unicode decimal digit — or an empty response — makes
`int(...)` (or the `[-1]` indexing) raise, so the query fails and no
prediction is recorded; a response whose final character is a decimal digit
of value other than 1 yields `predicted = false`. -/
theorem claim_C10_single_sample_parse (self : RecallScorer) (s : Sample)
    (explanation : String) (r : String)
    (hr : self.client.generateText (self.build_prompt [s] explanation false)
        self.max_tokens self.temperature = r) :
    (lastChar r = none → self.query [s] explanation = none) ∧
    (∀ ch, lastChar r = some ch → pyIntOfChar ch = none →
      self.query [s] explanation = none) ∧
    (∀ ch v, lastChar r = some ch → pyIntOfChar ch = some v → v ≠ 1 →
      self.query [s] explanation = some [{ s with predicted := some false }]) := by
  subst hr
  refine ⟨?_, ?_, ?_⟩
  · intro hnone
    exact query_singleton_none self s explanation (by rw [hnone]; rfl)
  · intro ch hch hdig
    refine query_singleton_none self s explanation ?_
    rw [hch]
    exact hdig
  · intro ch v hch hparse hne
    have hres : (lastChar (self.client.generateText
        (self.build_prompt [s] explanation false) self.max_tokens
        self.temperature)).bind pyIntOfChar = some v := by
      rw [hch]
      exact hparse
    have := query_singleton_some self s explanation v hres
    rw [decide_eq_false hne] at this
    exact this

/-- Claim C10 witness: an empty response and a response ending in `'.'` both
fail the query; a response ending in `'0'` records `predicted = false`. -/
theorem claim_C10_witness :
    ((scorerText "").query [sW] "expl" = none) ∧
    ((scorerText "ends with a dot.").query [sW] "expl" = none) ∧
    ((scorerText "score 0").query [sW] "expl" =
      some [{ sW with predicted := some false }]) :=
  ⟨(claim_C10_single_sample_parse (scorerText "") sW "expl" "" rfl).1 rfl,
   (claim_C10_single_sample_parse (scorerText "ends with a dot.") sW "expl"
      "ends with a dot." rfl).2.1 '.' (by decide) (by decide),
   (claim_C10_single_sample_parse (scorerText "score 0") sW "expl"
      "score 0" rfl).2.2 '0' 0 (by decide) (by decide) (by decide)⟩

/-- Claim C9 witness: labels of a concrete assembly, and a concrete
successful query that only fills `predicted`. -/
theorem claim_C9_witness :
    (∀ s ∈ (scorerW._prepare [[⟨[1]⟩]] [⟨[0]⟩]).flatten,
      s.predicted = none ∧ (s.quantile = -1 → s.ground_truth = false) ∧
        (1 ≤ s.quantile → s.ground_truth = true)) ∧
    List.Forall₂ (fun s t => t.text = s.text ∧ t.quantile = s.quantile ∧
      t.ground_truth = s.ground_truth ∧ ∃ b, t.predicted = some b) batchW outW :=
  ⟨(claim_C9_invariants scorerW [[⟨[1]⟩]] [⟨[0]⟩]).1,
   (claim_C9_invariants scorerW [[⟨[1]⟩]] [⟨[0]⟩]).2 batchW "expl" outW (by decide)⟩

/-- Claim C3 counterexample: Scenario C at a concrete input. The structured
response omits `example_1`; the batch's scoring does signal an explicit
failure (the query raises — `none` — instead of defaulting the missing
index), but contrary to the claim the failure is not contained per batch:
`process_batches` gathers without exception handling, so the whole scoring
call fails (`none`) rather than returning per-batch results. -/
theorem claim_C3_counterexample :
    scorerC.query batchW "expl" = none ∧
    scorerC.process_batches [batchW] "expl" = none := by
  constructor <;> decide

/-- Claim C3 (amended): a batched request whose structured response omits an
expected field `example_i` signals an explicit failure — the query raises
(`none`) rather than defaulting `predicted` for the missing index — and the
exception propagates through `asyncio.gather`, failing the entire scoring
call: it is distinguishable from a legitimate negative judgment, but it DOES
crash the overall scoring call. -/
theorem claim_C3_amended_failure_propagates (self : RecallScorer)
    (batches : List (List Sample)) (explanation : String)
    (batch : List Sample) (i : Nat)
    (hmem : batch ∈ batches) (h2 : 2 ≤ batch.length) (hi : i < batch.length)
    (hmiss : ((self.client.generateStructured
        (self.build_prompt batch explanation true)
        (create_response_model batch.length) self.max_tokens
        self.temperature).lookup s!"example_{i}") = none) :
    self.query batch explanation = none ∧
    self.process_batches batches explanation = none := by
  have hq : self.query batch explanation = none := by
    have hb : decide (batch.length > 1) = true := by
      simp only [decide_eq_true_eq]
      omega
    simp only [RecallScorer.query, hb, if_true]
    refine traverseOption_none _ _ (i, batch.get ⟨i, hi⟩) ?_ ?_
    · exact List.mem_enum_iff_get?.mpr (List.get?_eq_get hi)
    · simp only [hmiss, Option.map_none']
  refine ⟨hq, ?_⟩
  have hall : traverseOption (fun b => self.query b explanation) batches = none :=
    traverseOption_none (fun b => self.query b explanation) batches batch hmem hq
  simp only [RecallScorer.process_batches, hall, Option.map_none']

/-- Claim C3 witness: the amended statement at the Scenario C input. -/
theorem claim_C3_witness :
    (batchW ∈ [batchW]) ∧ (2 ≤ batchW.length) ∧ (1 < batchW.length) ∧
    (scorerC.query batchW "expl" = none ∧
     scorerC.process_batches [batchW] "expl" = none) :=
  ⟨by decide, by decide, by decide,
   claim_C3_amended_failure_propagates scorerC [batchW] "expl" batchW 1
     (by decide) (by decide) (by decide) (by decide)⟩

theorem forall₂_query_lengths (self : RecallScorer) (explanation : String) :
    ∀ (batches results : List (List Sample)),
      List.Forall₂ (fun b r => self.query b explanation = some r) batches results →
      batches.map List.length = results.map List.length := by
  intro batches results h
  induction h with
  | nil => rfl
  | cons hbr htail ih =>
    simp only [List.map_cons, ih]
    congr 1
    exact (query_preserves self _ explanation _ hbr).length_eq

/-- Claim C7: when every batch's query succeeds, `process_batches` returns the
per-batch results (converted to plain records) flattened in batch-submission
order — `asyncio.gather` joins results positionally, independent of request
completion order — and slicing the flat output back at the original batch
boundaries recovers exactly the per-batch dispatcher output. -/
theorem claim_C7_flatten_roundtrip (self : RecallScorer)
    (batches results : List (List Sample)) (explanation : String)
    (h : traverseOption (fun batch => self.query batch explanation) batches =
      some results) :
    self.process_batches batches explanation =
      some ((results.map (List.map Sample.default)).flatten) ∧
    sliceBy (batches.map List.length)
        ((results.map (List.map Sample.default)).flatten) =
      results.map (List.map Sample.default) := by
  constructor
  · simp only [RecallScorer.process_batches, h, Option.map_some']
    rw [List.map_flatten]
  · have hf := traverseOption_forall₂
      (fun batch => self.query batch explanation) batches results h
    have hlen := forall₂_query_lengths self explanation batches results hf
    have hlen2 : (results.map (List.map Sample.default)).map List.length =
        results.map List.length := by
      rw [List.map_map]
      exact List.map_congr_left fun r _ => by simp
    rw [hlen, ← hlen2, sliceBy_map_length_flatten]

/-- Claim C7 witness: two batches (one batched, one singleton), both
succeeding; the flat record list slices back into the per-batch outputs. -/
theorem claim_C7_witness :
    (traverseOption (fun batch => scorerW.query batch "expl") [batchW, [sW]] =
      some [outW, [{ sW with predicted := some true }]]) ∧
    (scorerW.process_batches [batchW, [sW]] "expl" =
      some ((([outW, [{ sW with predicted := some true }]]).map
        (List.map Sample.default)).flatten) ∧
     sliceBy (([batchW, [sW]]).map List.length)
        ((([outW, [{ sW with predicted := some true }]]).map
          (List.map Sample.default)).flatten) =
      ([outW, [{ sW with predicted := some true }]]).map
        (List.map Sample.default)) :=
  ⟨by decide,
   claim_C7_flatten_roundtrip scorerW [batchW, [sW]]
     [outW, [{ sW with predicted := some true }]] "expl" (by decide)⟩

end SaeAutoInterp
